import Mathlib

/-!
Formal model of the core of the `ojs_updater` repository (a Python tool that
upgrades OJS journal installations).  The Python sources are embedded
shallowly: pure helpers become Lean functions, stateful code becomes explicit
state passing (`State → State × Option Err`), and Python exceptions become an
explicit error component.  File/dir trees, database contents and archives are
modelled by explicit finite maps and abstract identifiers.
-/

namespace OjsUpdater

/-- Python exceptions raised by the modelled code. -/
inductive Err where
  | valueError
  | keyError
  | fileNotFound
  | notImplemented
  | indexError
  | osError
  | stepFailed
  deriving DecidableEq, Repr

/-- Python `dict` lookup (`d[k]` / `k in d`), on an association list. -/
def lookupKey {κ α : Type} [DecidableEq κ] (k : κ) : List (κ × α) → Option α
  | [] => none
  | (k', v) :: rest => if k' = k then some v else lookupKey k rest

/-- Python `dict` assignment `d[k] = v`: overwrite in place, else append. -/
def dictInsert {κ α : Type} [DecidableEq κ] (m : List (κ × α)) (k : κ) (v : α) :
    List (κ × α) :=
  match m with
  | [] => [(k, v)]
  | (k', v') :: rest =>
    if k' = k then (k', v) :: rest else (k', v') :: dictInsert rest k v

/-! ### `read_ojs_version_file` (commons.py, lines 115-128)

The XML parsing itself is external (`ElementTree`); the function's own logic
iterates the root's children as (tag, text) pairs, skips `patch` tags, fails
on a repeated tag, and accumulates the rest in insertion order. -/

/-- One child of the descriptor root: its tag and its text. -/
abbrev VEntry := String × String

/-- The accumulation loop of `read_ojs_version_file`: `result` plays the role
of the Python `result` dict (insertion-ordered, unique keys). -/
def readVersionLoop : List VEntry → List VEntry → Except Err (List VEntry)
  | result, [] => Except.ok result
  | result, (tag, content) :: rest =>
    if tag = "patch" then readVersionLoop result rest
    else if (lookupKey tag result).isSome then Except.error Err.valueError
    else readVersionLoop (result ++ [(tag, content)]) rest

/-- `read_ojs_version_file`, applied to the descriptor's (tag, text) pairs. -/
def read_ojs_version_file (entries : List VEntry) : Except Err (List VEntry) :=
  readVersionLoop [] entries

/-! ### `OJSInstance.toggle_installed` (ojsinstance.py, lines 99-115)

The config file is processed line by line (lines keep their trailing
newline).  A line whose lower-cased form matches the regular expression
`^\s*installed\s*=\s*on` is replaced by the literal `installed = Off\n`,
a match of `^\s*installed\s*=\s*off` by `installed = On\n`, and every other
line is written back unchanged. -/

/-- Python `\s` on ASCII input: space, tab, newline, carriage return,
vertical tab, form feed. -/
def pySpace (c : Char) : Bool :=
  c = ' ' || c = '\t' || c = '\n' || c = '\r' || c = '\x0b' || c = '\x0c'

/-- Consume the `\s*` of the regular expression. -/
def dropWs : List Char → List Char
  | [] => []
  | c :: cs => if pySpace c then dropWs cs else c :: cs

/-- Match a literal character sequence at the head, returning the rest. -/
def matchLiteral : List Char → List Char → Option (List Char)
  | cs, [] => some cs
  | [], _ :: _ => none
  | c :: cs, p :: ps => if c = p then matchLiteral cs ps else none

/-- Python `str.lower()` restricted to the characters that occur here. -/
def pyLower (cs : List Char) : List Char := cs.map Char.toLower

/-- `re.match(r'^\s*installed\s*=\s*<tgt>', line.lower())` as a Boolean. -/
def matchesInstalledEq (tgt : List Char) (line : String) : Bool :=
  let cs := pyLower line.data
  match matchLiteral (dropWs cs) "installed".data with
  | none => false
  | some rest =>
    match matchLiteral (dropWs rest) "=".data with
    | none => false
    | some rest2 => (matchLiteral (dropWs rest2) tgt).isSome

/-- Whether a line is the `installed = On` / `installed = Off` line. -/
def isInstalledLine (line : String) : Bool :=
  matchesInstalledEq "on".data line || matchesInstalledEq "off".data line

/-- The per-line rewrite of `toggle_installed`. -/
def toggleLine (line : String) : String :=
  if matchesInstalledEq "on".data line then "installed = Off\n"
  else if matchesInstalledEq "off".data line then "installed = On\n"
  else line

/-- `toggle_installed`, acting on the list of lines of the config file. -/
def toggle_installed (lines : List String) : List String :=
  lines.map toggleLine

/-! ### `Updater._read_version_folder` (updater.py, lines 31-43)

The scan iterates the entries of the version folder; for every entry that is
a directory and passes `is_ojs`, a reference `OJSInstance` is loaded and
stored in the `versions` dict under its parsed version.  Versions (parsed by
the external `packaging` library) are modelled as an abstract totally ordered
value, here `Nat`. -/

/-- One entry of the version folder, together with the data that loading it
as a reference instance would yield (`item.is_dir()`, the `is_ojs` check,
the parsed version and an identifier for the loaded instance). -/
structure RefItem where
  isDir : Bool
  isOjsDir : Bool
  version : Nat
  tid : Nat
  deriving DecidableEq, Repr

/-- `_read_version_folder`: fold of `versions[instance.version] = instance`
over the folder entries. -/
def read_version_folder (items : List RefItem) : List (Nat × RefItem) :=
  items.foldl
    (fun versions item =>
      if item.isDir then
        if item.isOjsDir then dictInsert versions item.version item
        else versions
      else versions)
    []

/-! ### The update state machine
(`Updater.update`, `OJSInstance.backup` / `archive_files` / `dump_database`
 / `toggle_installed` / `lock` / `_rewind`)

State observable by the claims: the effect trace, the `Instance.backups`
dict, the archives written to disk (database archives hold a database dump,
file archives hold a snapshot of the live tree), the database contents and
the live directory tree.  Database dumps are abstract (`Nat`), the live tree
is an abstract identifier plus its `installed` config flag (the config file
lives inside the tree, so a file-tree restore also restores the flag). -/

/-- Observable side effects of an update run. -/
inductive Eff where
  | logWarn
  | logInfo
  | logCritical
  | lockSite
  | unlockSite
  | archiveFilesEff
  | dumpDbEff
  | writeDbArchiveEff
  | upgradeFolderEff
  | toggleInstalledEff
  | runUpgradeToolEff
  | restoreDbEff (dump : Option Nat)
  | rmLiveTreeEff
  | extractFilesBackupEff
  deriving DecidableEq, Repr

/-- The live journal tree: an abstract tree identity plus the `installed`
flag of the config file stored inside the tree. -/
structure LiveTree where
  tid : Nat
  installed : Bool
  deriving DecidableEq, Repr

/-- The mutable state threaded through an update run. -/
structure UpdSt where
  trace : List Eff
  backups : List (String × String)
  dbDisk : List (String × Nat)
  wwwDisk : List (String × LiveTree)
  dbState : Nat
  liveTree : Option LiveTree
  deriving DecidableEq, Repr

/-- The relevant parts of the settings dict (plus facts about the disk that
the code only probes, such as the existence of the backup destinations).
`dbBackupKey` / `wwwBackupKey` are `Path(settings['ojs_backup_db']).name`
and `Path(settings['ojs_backup_www']).name`, the keys used in
`Instance.backups`. -/
structure Settings where
  debug : Bool
  force : Bool
  timestamp : String
  ojsBackupDb : String
  ojsBackupWww : String
  dbBackupKey : String
  wwwBackupKey : String
  driver : String
  dbName : String
  instanceName : String
  destDbExists : Bool
  destWwwExists : Bool
  deriving DecidableEq, Repr

/-- The driver registry `DUMPERS` (commons.py, lines 186-189); the dump
functions themselves are external subprocess wrappers, so only the keys
matter to the control flow. -/
def DUMPERS : List (String × Unit) := [("mysql", ()), ("mysqli", ())]

/-- The driver registry `DATABASE_IMPORT` (commons.py, lines 191-194). -/
def DATABASE_IMPORT : List (String × Unit) := [("mysql", ()), ("mysqli", ())]

/-- Python `str.endswith`, on the character lists of the strings. -/
def strEndsWith (s suffix : String) : Bool :=
  s.data.drop (s.data.length - suffix.data.length) == suffix.data

/-- The files-archive path `<ojs_backup_www>/<name>_<timestamp>` plus the
`.tar.bz2` suffix that `shutil.make_archive` appends for `bztar`. -/
def wwwArchivePath (s : Settings) : String :=
  s.ojsBackupWww ++ "/" ++ s.instanceName ++ "_" ++ s.timestamp ++ ".tar.bz2"

/-- The database-archive path `<ojs_backup_db>/<name>_<timestamp>.tar.bz2`
built by `dump_database`. -/
def dbArchivePath (s : Settings) : String :=
  s.ojsBackupDb ++ "/" ++ s.instanceName ++ "_" ++ s.timestamp ++ ".tar.bz2"

/-- `OJSInstance.archive_files` (ojsinstance.py, lines 123-146): checks the
destination, builds `<dest>/<name>_<timestamp>` and archives the whole tree
with `shutil.make_archive` (`bztar`, so the result name carries `.tar.bz2`);
`dry_run=settings['debug']` suppresses the write but the backup path is
recorded either way. -/
def archive_files (s : Settings) (st : UpdSt) : UpdSt × Option Err :=
  if ¬ s.destWwwExists then (st, some Err.fileNotFound)
  else
    match st.liveTree with
    | none => (st, some Err.fileNotFound)
    | some t =>
      let path := wwwArchivePath s
      let st1 :=
        if ¬ s.debug then
          { st with
            wwwDisk := dictInsert st.wwwDisk path t,
            trace := st.trace ++ [Eff.archiveFilesEff] }
        else st
      ({ st1 with backups := dictInsert st1.backups s.wwwBackupKey path }, none)

/-- `OJSInstance.dump_database` (ojsinstance.py, lines 148-204): checks the
destination, looks the driver up in `DUMPERS` (raising `NotImplementedError`
on a miss), obtains the dump (the current database contents), and writes it
into `<name>_<timestamp>.tar.bz2` at the destination unless
`settings['debug']` is set; the backup path is recorded under the database
kind unconditionally (line 204 sits outside the `if not debug` block). -/
def dump_database (s : Settings) (st : UpdSt) : UpdSt × Option Err :=
  if ¬ s.destDbExists then (st, some Err.fileNotFound)
  else if (lookupKey s.driver DUMPERS).isNone then (st, some Err.notImplemented)
  else
    let dump := st.dbState
    let st1 := { st with trace := st.trace ++ [Eff.dumpDbEff] }
    let tarPath := dbArchivePath s
    let st2 :=
      if ¬ s.debug then
        { st1 with
          dbDisk := dictInsert st1.dbDisk tarPath dump,
          trace := st1.trace ++ [Eff.writeDbArchiveEff] }
      else st1
    ({ st2 with backups := dictInsert st2.backups s.dbBackupKey tarPath }, none)

/-- `OJSInstance.backup` (ojsinstance.py, lines 117-121): `archive_files`
against `ojs_backup_www`, then `dump_database` against `ojs_backup_db`. -/
def instanceBackup (s : Settings) (st : UpdSt) : UpdSt × Option Err :=
  match archive_files s st with
  | (st1, some e) => (st1, some e)
  | (st1, none) => dump_database s st1

/-- The state effect of `toggle_installed`: rewrite the config file inside
the live tree, flipping the flag (fails if the tree, and with it the config
file, is missing). -/
def toggleInstalledState (st : UpdSt) : UpdSt × Option Err :=
  match st.liveTree with
  | none => (st, some Err.fileNotFound)
  | some t =>
    ({ st with
      liveTree := some { t with installed := ¬ t.installed },
      trace := st.trace ++ [Eff.toggleInstalledEff] }, none)

/-- `OJSInstance._rewind` (ojsinstance.py, lines 215-267).  With no recorded
backups it only warns; otherwise it fetches both backup paths from the
`backups` dict (a plain `dict` lookup, so a missing kind raises `KeyError`
before anything is restored), extracts the database archive to `/tmp`,
restores the database through `DATABASE_IMPORT[driver]`, removes the live
tree and re-expands the files archive in its place.  If the database backup
path does not end in `.bz2` nothing is extracted and `db_data` stays
`/tmp/`, which exists, so the restore function is invoked on the `/tmp`
directory itself; `mysql` fails on that, surfaced as `OSError` by
`mysql_restore`. -/
def rewind (s : Settings) (st : UpdSt) : UpdSt × Option Err :=
  if st.backups = [] then
    ({ st with trace := st.trace ++ [Eff.logWarn] }, none)
  else
    let st0 := { st with trace := st.trace ++ [Eff.logInfo] }
    match lookupKey s.dbBackupKey st0.backups with
    | none => (st0, some Err.keyError)
    | some dbBackup =>
      match lookupKey s.wwwBackupKey st0.backups with
      | none => (st0, some Err.keyError)
      | some wwwBackup =>
        let dbDataRes : Except Err (Option Nat) :=
          if strEndsWith dbBackup ".bz2" then
            match lookupKey dbBackup st0.dbDisk with
            | none => Except.error Err.fileNotFound
            | some dump => Except.ok (some dump)
          else Except.ok none
        match dbDataRes with
        | Except.error e => (st0, some e)
        | Except.ok dbData =>
          if (lookupKey s.driver DATABASE_IMPORT).isNone then
            (st0, some Err.notImplemented)
          else
            match dbData with
            | none =>
              ({ st0 with trace := st0.trace ++ [Eff.restoreDbEff none] },
               some Err.osError)
            | some dump =>
              let st1 := { st0 with
                dbState := dump,
                trace := st0.trace ++ [Eff.restoreDbEff (some dump)] }
              let st2 := { st1 with
                liveTree := none,
                trace := st1.trace ++ [Eff.rmLiveTreeEff] }
              if strEndsWith wwwBackup ".bz2" then
                match lookupKey wwwBackup st2.wwwDisk with
                | none => (st2, some Err.fileNotFound)
                | some tree =>
                  ({ st2 with
                    liveTree := some tree,
                    trace := st2.trace ++ [Eff.extractFilesBackupEff] }, none)
              else (st2, none)

/-- `OJSInstance.lock` (ojsinstance.py, lines 269-283), a
`contextlib.contextmanager`.  The body's exception is thrown into the
generator at the `yield`; the generator catches it (`except Exception`),
logs it, runs `_rewind` unless `settings['debug']` is set, and then returns
without re-raising — `contextlib` therefore *suppresses* the body's
exception, and only an exception raised inside `_rewind` itself can
propagate. -/
def runLocked (s : Settings) (body : UpdSt → UpdSt × Option Err) (st : UpdSt) :
    UpdSt × Option Err :=
  let st0 := { st with trace := st.trace ++ [Eff.lockSite] }
  match body st0 with
  | (st1, none) => ({ st1 with trace := st1.trace ++ [Eff.unlockSite] }, none)
  | (st1, some _e) =>
    let st2 := { st1 with trace := st1.trace ++ [Eff.logCritical] }
    if ¬ s.debug then rewind s st2
    else (st2, none)

/-! ### `Updater.update` (updater.py, lines 61-99) -/

/-- The four statements inside the `with journal.lock()` block. -/
inductive BodyStep where
  | upgradeFolder
  | toggleOff
  | upgradeDb
  | toggleOn
  deriving DecidableEq, Repr

/-- The environment of an update run: the version catalog (version to
reference-flag of the catalog instance), the identity of the reference tree
that `upgrade_journal_folder` copies in, the abstract effect of a successful
`upgrade.php` run on the database, the abstract database contents left
behind by a failed `upgrade.php` run, and a failure oracle selecting which
statement of the protected block (if any) raises. -/
structure Env where
  catalog : List (Nat × Bool)
  refTid : Nat
  dbMigrated : Nat
  dbAfterFail : Nat
  failAt : Option BodyStep
  deriving DecidableEq, Repr

/-- `max(self.versions)`: maximum of the keys of a non-empty dict. -/
def maxKey : List (Nat × Bool) → Nat
  | [] => 0
  | (v, _) :: rest => max v (maxKey rest)

/-- `Updater.get_newest_version` (updater.py, lines 45-49). -/
def get_newest_version (catalog : List (Nat × Bool)) : Except Err Nat :=
  if catalog = [] then Except.error Err.valueError
  else Except.ok (maxKey catalog)

/-- The version-resolution prelude of `update`: no explicit target means
the newest catalog version (a `Version` object is always truthy, so the
`if not new_version` retest after assignment never fires on its own). -/
def resolve_version (catalog : List (Nat × Bool)) (arg : Option Nat) :
    Except Err Nat :=
  match arg with
  | none => get_newest_version catalog
  | some v => Except.ok v

/-- The body of the `with journal.lock()` block (updater.py, lines 87-99):
replace the journal folder with the reference tree (the old tree's config
file — and with it the `installed` flag — is carried over), toggle the
installed flag off, run the `upgrade.php` migration subprocess, toggle the
flag back on.  Each statement may raise, as selected by `env.failAt`; a
failing migration subprocess leaves the database at `env.dbAfterFail`. -/
def updateBody (env : Env) (st : UpdSt) : UpdSt × Option Err :=
  let stA := { st with trace := st.trace ++ [Eff.logInfo] }
  if env.failAt = some BodyStep.upgradeFolder then (stA, some Err.stepFailed)
  else
    match stA.liveTree with
    | none => (stA, some Err.fileNotFound)
    | some t =>
      let stB := { stA with
        liveTree := some { tid := env.refTid, installed := t.installed },
        trace := stA.trace ++ [Eff.upgradeFolderEff] }
      let stC := { stB with trace := stB.trace ++ [Eff.logInfo] }
      if env.failAt = some BodyStep.toggleOff then (stC, some Err.stepFailed)
      else
        match toggleInstalledState stC with
        | (stD, some e) => (stD, some e)
        | (stD, none) =>
          let stE := { stD with trace := stD.trace ++ [Eff.logInfo] }
          if env.failAt = some BodyStep.upgradeDb then
            ({ stE with
              dbState := env.dbAfterFail,
              trace := stE.trace ++ [Eff.runUpgradeToolEff] },
             some Err.stepFailed)
          else
            let stF := { stE with
              dbState := env.dbMigrated,
              trace := stE.trace ++ [Eff.runUpgradeToolEff] }
            let stG := { stF with trace := stF.trace ++ [Eff.logInfo] }
            if env.failAt = some BodyStep.toggleOn then
              (stG, some Err.stepFailed)
            else toggleInstalledState stG

/-- `Updater.update`, lines 81-99: the part after the early-exit check —
the reference guard (`new_instance.reference`, `ValueError` on a
non-reference catalog instance; the `none` branch is unreachable because
membership was already checked), then `journal.backup()` followed by the
protected block under `journal.lock()`. -/
def updateAfterGuards (s : Settings) (env : Env) (st : UpdSt)
    (newVersion : Nat) : UpdSt × Option Err :=
  match lookupKey newVersion env.catalog with
  | none => (st, some Err.valueError)
  | some isRef =>
    if ¬ isRef then (st, some Err.valueError)
    else
      let st2 := { st with trace := st.trace ++ [Eff.logInfo] }
      match instanceBackup s st2 with
      | (st3, some e) => (st3, some e)
      | (st3, none) => runLocked s (updateBody env) st3

/-- `Updater.update` (updater.py, lines 61-99).  Version handling, the
membership check against the catalog (`ValueError` on a miss), the
early-exit warning and `return` when the journal's version is not below the
target and `force` is absent from the settings, then the reference guard and
the protected upgrade. -/
def update (s : Settings) (env : Env) (journalVer : Nat) (arg : Option Nat)
    (st : UpdSt) : UpdSt × Option Err :=
  match resolve_version env.catalog arg with
  | Except.error e => (st, some e)
  | Except.ok newVersion =>
    if (lookupKey newVersion env.catalog).isNone then (st, some Err.valueError)
    else
      if journalVer ≥ newVersion then
        let st0 := { st with trace := st.trace ++ [Eff.logWarn] }
        if ¬ s.force then (st0, none)
        else
          let st1 := { st0 with trace := st0.trace ++ [Eff.logWarn] }
          updateAfterGuards s env st1 newVersion
      else updateAfterGuards s env st newVersion

/-! ### `Updater.upgrade_journal_folder`, the swap and the public-folder
carry-over (updater.py, lines 101-144)

For this fragment a directory tree is an abstract identity plus the listing
of its `public` folder (`none` when the tree has no `public` folder).  Two
on-disk locations matter: the live path `journal.base_folder` and the
renamed path `<base_folder>_<timestamp>`. -/

/-- A directory tree as seen by the public-folder carry-over. -/
structure DirTree where
  tid : Nat
  publicFiles : Option (List String)
  deriving DecidableEq, Repr

/-- The two disk locations touched by the swap. -/
structure FolderSt where
  liveSlot : Option DirTree
  oldSlot : Option DirTree
  deriving DecidableEq, Repr

/-- Lines 109-144 of `upgrade_journal_folder`: the existence guard, the
rename of the live tree to the timestamped path, the deep copy of the
reference tree into the live path, and the public-folder check and
carry-over.  `source` is `none` when the reference base folder does not
exist; `journalPresent` is `journal is not None`.  The check reads the new
tree's `public` listing: more than one entry raises `ValueError`, a sole
entry other than `index.html` raises `ValueError`, and an empty listing
makes `files[0]` raise `IndexError`; only the exact singleton `index.html`
passes, after which the old tree's `public` folder replaces it (a missing
old `public` folder makes `shutil.copytree` raise `FileNotFoundError`). -/
def upgradeFolderPublicPhase (source : Option DirTree) (journalPresent : Bool)
    (st : FolderSt) : FolderSt × Option Err :=
  match source with
  | some refTree =>
    if journalPresent then
      match st.liveSlot with
      | none => (st, some Err.fileNotFound)
      | some oldTree =>
        let st2 : FolderSt := { liveSlot := some refTree, oldSlot := some oldTree }
        let carryOver : FolderSt × Option Err :=
          match oldTree.publicFiles with
          | none => (st2, some Err.fileNotFound)
          | some oldPub =>
            ({ st2 with
              liveSlot := some { refTree with publicFiles := some oldPub } },
             none)
        match refTree.publicFiles with
        | some files =>
          if files.length > 1 then (st2, some Err.valueError)
          else
            match files with
            | [] => (st2, some Err.indexError)
            | f :: _ =>
              if f ≠ "index.html" then (st2, some Err.valueError)
              else carryOver
        | none => carryOver
    else (st, some Err.fileNotFound)
  | none => (st, some Err.fileNotFound)

/-! ### `Updater.upgrade_journal_folder`, the custom-file carry-over
(updater.py, lines 164-213)

The old (renamed) tree and the new (live) tree are finite maps from a
relative path — the list of its components, as in `pathlib` parts — to an
entry (file or directory, with abstract content).  A directory entry stands
for that whole subtree, matching the granularity at which the code copies.
`dst_bck` is `Path('/'.join(dst.parts) + suffix)`, i.e. the same path with
the suffix appended to its last component.  `os.makedirs(dst.parent)` is
modelled as creating the parent directory entry. -/

/-- A relative path, as its components. -/
abbrev RPath := List String

/-- A file-system entry: a file or a whole directory subtree, with abstract
content. -/
inductive Entry where
  | file (data : Nat)
  | dir (data : Nat)
  deriving DecidableEq, Repr

/-- A tree as a finite map from relative path to entry. -/
def FS := RPath → Option Entry

/-- `src.is_file()` on a looked-up entry. -/
def entryIsFile : Option Entry → Bool
  | some (Entry.file _) => true
  | _ => false

/-- `'/'.join(p.parts) + suffix`, re-read as a path: the last component gets
the suffix appended. -/
def addSuffix (suffix : String) : RPath → RPath
  | [] => [suffix]
  | [c] => [c ++ suffix]
  | c :: rest => c :: addSuffix suffix rest

/-- One iteration of the custom-plugin loop (lines 176-213), acting on the
new tree and the accumulated warnings.  The copy function is chosen by
`src.is_dir()`; an existing destination is first moved to `dst_bck`;
otherwise, for a file source with a missing destination parent, the parent
directory is created; then the copy runs, and a missing source raises
`FileNotFoundError`, which is caught and only logged (the move of the
destination, if any, has already happened). -/
def migrateCustomPath (old : FS) (suffix : String) (acc : FS × List RPath)
    (folder : RPath) : FS × List RPath :=
  let t := acc.1
  let src := old folder
  let t1 : FS :=
    if (t folder).isSome then
      fun q =>
        if q = folder then none
        else if q = addSuffix suffix folder then t folder
        else t q
    else if entryIsFile src && (t folder.dropLast).isNone then
      fun q => if q = folder.dropLast then some (Entry.dir 0) else t q
    else t
  match src with
  | none => (t1, acc.2 ++ [folder])
  | some e => (fun q => if q = folder then some e else t1 q, acc.2)

/-- The custom-plugin loop over the whole path list. -/
def migrateCustomPaths (old : FS) (suffix : String) (t : FS)
    (folders : List RPath) : FS × List RPath :=
  folders.foldl (migrateCustomPath old suffix) (t, [])

/-- Lines 165-174: the plugin path list is the paths under the wildcard key
`all` plus the paths under the instance's name (an absent or empty value
contributes nothing), deduplicated by `list(set(...))` — whose order Python
leaves unspecified; `List.dedup` fixes one order. -/
def plugin_path_list (customFiles : List (String × List RPath))
    (name : String) : List RPath :=
  let fromAll := match lookupKey "all" customFiles with
    | some ps => ps
    | none => []
  let fromName := match lookupKey name customFiles with
    | some ps => ps
    | none => []
  (fromAll ++ fromName).dedup

/-! ## Helper lemmas -/

theorem lookupKey_append_of_none {κ α : Type} [DecidableEq κ]
    {l₁ l₂ : List (κ × α)} {k : κ} (h : lookupKey k l₁ = none) :
    lookupKey k (l₁ ++ l₂) = lookupKey k l₂ := by
  induction l₁ with
  | nil => rfl
  | cons p rest ih =>
    obtain ⟨k', v⟩ := p
    by_cases hk : k' = k
    · simp [lookupKey, hk] at h
    · simp only [lookupKey, if_neg hk] at h ⊢
      exact ih h

theorem lookupKey_append_of_some {κ α : Type} [DecidableEq κ]
    {l₁ l₂ : List (κ × α)} {k : κ} {v : α} (h : lookupKey k l₁ = some v) :
    lookupKey k (l₁ ++ l₂) = some v := by
  induction l₁ with
  | nil => simp [lookupKey] at h
  | cons p rest ih =>
    obtain ⟨k', v'⟩ := p
    by_cases hk : k' = k
    · simp only [lookupKey, if_pos hk] at h ⊢
      exact h
    · simp only [lookupKey, if_neg hk] at h ⊢
      exact ih h

theorem lookupKey_dictInsert_self {κ α : Type} [DecidableEq κ]
    (m : List (κ × α)) (k : κ) (v : α) :
    lookupKey k (dictInsert m k v) = some v := by
  induction m with
  | nil => simp [dictInsert, lookupKey]
  | cons p rest ih =>
    obtain ⟨k', v'⟩ := p
    by_cases hk : k' = k
    · simp [dictInsert, lookupKey, hk]
    · simp [dictInsert, lookupKey, hk, ih]

theorem lookupKey_dictInsert_ne {κ α : Type} [DecidableEq κ]
    (m : List (κ × α)) {k k' : κ} (v : α) (h : k' ≠ k) :
    lookupKey k' (dictInsert m k v) = lookupKey k' m := by
  induction m with
  | nil => simp [dictInsert, lookupKey, Ne.symm h]
  | cons p rest ih =>
    obtain ⟨k'', v'⟩ := p
    by_cases hk : k'' = k
    · subst hk
      simp [dictInsert, lookupKey, Ne.symm h]
    · simp [dictInsert, lookupKey, hk, ih]

theorem dictInsert_keys {κ α : Type} [DecidableEq κ]
    (m : List (κ × α)) (k : κ) (v : α) :
    (dictInsert m k v).map Prod.fst
      = if k ∈ m.map Prod.fst then m.map Prod.fst
        else m.map Prod.fst ++ [k] := by
  induction m with
  | nil => simp [dictInsert]
  | cons p rest ih =>
    obtain ⟨k', v'⟩ := p
    by_cases hk : k' = k
    · subst hk
      simp [dictInsert]
    · have hne : ¬ k = k' := fun hh => hk hh.symm
      by_cases hmem : k ∈ rest.map Prod.fst
      · simp [dictInsert, hk, ih, hmem, hne]
      · simp [dictInsert, hk, ih, hmem, hne]

theorem dictInsert_keys_nodup {κ α : Type} [DecidableEq κ]
    {m : List (κ × α)} (h : (m.map Prod.fst).Nodup) (k : κ) (v : α) :
    ((dictInsert m k v).map Prod.fst).Nodup := by
  rw [dictInsert_keys]
  by_cases hmem : k ∈ m.map Prod.fst
  · simpa [hmem] using h
  · simp only [hmem, if_false]
    exact List.Nodup.append h (List.nodup_singleton k)
      (by simpa [List.disjoint_singleton] using hmem)

/-! ## C8: `read_ojs_version_file` -/

theorem readVersionLoop_filter (es : List VEntry) :
    ∀ acc, readVersionLoop acc es
      = readVersionLoop acc (es.filter (fun e => e.1 != "patch")) := by
  induction es with
  | nil => intro acc; rfl
  | cons e rest ih =>
    intro acc
    obtain ⟨tag, content⟩ := e
    by_cases hp : tag = "patch"
    · simp [readVersionLoop, hp, ih]
    · by_cases hl : (lookupKey tag acc).isSome
      · simp [readVersionLoop, hp, hl]
      · simp [readVersionLoop, hp, hl, ih]

theorem readVersionLoop_dup (es : List VEntry) :
    ∀ acc (tag : String), tag ≠ "patch" →
      (2 ≤ (es.map Prod.fst).count tag
        ∨ (1 ≤ (es.map Prod.fst).count tag ∧ (lookupKey tag acc).isSome)) →
      ∃ e, readVersionLoop acc es = Except.error e := by
  induction es with
  | nil =>
    intro acc tag _ h
    simp [List.count] at h
  | cons e rest ih =>
    intro acc tag htag h
    obtain ⟨t, c⟩ := e
    by_cases hp : t = "patch"
    · subst hp
      have hne : "patch" ≠ tag := fun hh => htag hh.symm
      rw [show readVersionLoop acc (("patch", c) :: rest)
            = readVersionLoop acc rest from by simp [readVersionLoop]]
      apply ih acc tag htag
      simpa [List.count_cons, hne] using h
    · by_cases hl : (lookupKey t acc).isSome
      · exact ⟨Err.valueError, by simp [readVersionLoop, hp, hl]⟩
      · rw [show readVersionLoop acc ((t, c) :: rest)
              = readVersionLoop (acc ++ [(t, c)]) rest from by
            simp [readVersionLoop, hp, hl]]
        apply ih _ tag htag
        by_cases ht : t = tag
        · subst ht
          rcases h with h2 | ⟨_, hsome⟩
          · right
            constructor
            · have : (rest.map Prod.fst).count t + 1 ≥ 2 := by
                simpa [List.count_cons] using h2
              omega
            · have hnone : lookupKey t acc = none := by
                cases hv : lookupKey t acc with
                | none => rfl
                | some v => simp [hv] at hl
              rw [lookupKey_append_of_none hnone]
              simp [lookupKey]
          · exact absurd hsome hl
        · have hne : t ≠ tag := ht
          rcases h with h2 | ⟨h1, hsome⟩
          · left
            simpa [List.count_cons, hne] using h2
          · right
            refine ⟨by simpa [List.count_cons, hne] using h1, ?_⟩
            cases hv : lookupKey tag acc with
            | none => simp [hv] at hsome
            | some v => simp [lookupKey_append_of_some hv]

theorem readVersionLoop_ok (es : List VEntry) :
    ∀ acc, (∀ e ∈ es, e.1 ≠ "patch") →
      ((es.map Prod.fst).Nodup) →
      (∀ t ∈ es.map Prod.fst, lookupKey t acc = none) →
      readVersionLoop acc es = Except.ok (acc ++ es) := by
  induction es with
  | nil => intro acc _ _ _; simp [readVersionLoop]
  | cons e rest ih =>
    intro acc hnp hnd hacc
    obtain ⟨t, c⟩ := e
    have ht : t ≠ "patch" := hnp (t, c) (List.mem_cons_self _ _)
    have hnone : lookupKey t acc = none := hacc t (by simp)
    rw [show readVersionLoop acc ((t, c) :: rest)
          = readVersionLoop (acc ++ [(t, c)]) rest from by
        simp [readVersionLoop, ht, hnone]]
    have hacc' : ∀ t' ∈ rest.map Prod.fst,
        lookupKey t' (acc ++ [(t, c)]) = none := by
      intro t' ht'
      have htne : t ≠ t' := by
        intro hh
        subst hh
        exact (List.nodup_cons.mp (by simpa using hnd)).1 ht'
      rw [lookupKey_append_of_none (hacc t' (by simp [ht']))]
      simp [lookupKey, htne]
    rw [ih (acc ++ [(t, c)]) (fun e he => hnp e (List.mem_cons_of_mem _ he))
        (List.nodup_cons.mp (by simpa using hnd)).2 hacc']
    simp

/-- C8: `read_ojs_version_file` skips every `patch` entry (parsing a
descriptor equals parsing it with the `patch` entries removed), fails with a
malformed-descriptor `ValueError` whenever any other tag occurs more than
once, otherwise returns the tag-to-text mapping in document order, and —
being a pure function of the descriptor — yields equal results when the
same descriptor is parsed twice. -/
theorem c8_read_ojs_version_file (entries : List VEntry) :
    read_ojs_version_file entries
      = read_ojs_version_file (entries.filter (fun e => e.1 != "patch"))
    ∧ (∀ tag, tag ≠ "patch" → 2 ≤ (entries.map Prod.fst).count tag →
        ∃ e, read_ojs_version_file entries = Except.error e)
    ∧ (((entries.filter (fun e => e.1 != "patch")).map Prod.fst).Nodup →
        read_ojs_version_file entries
          = Except.ok (entries.filter (fun e => e.1 != "patch")))
    ∧ read_ojs_version_file entries = read_ojs_version_file entries := by
  refine ⟨readVersionLoop_filter entries [], ?_, ?_, rfl⟩
  · intro tag htag hcount
    exact readVersionLoop_dup entries [] tag htag (Or.inl hcount)
  · intro hnd
    rw [read_ojs_version_file, readVersionLoop_filter entries []]
    have := readVersionLoop_ok (entries.filter (fun e => e.1 != "patch")) []
      (fun e he => by simpa using (List.of_mem_filter he))
      hnd (fun t _ => rfl)
    simpa [read_ojs_version_file] using this

/-- Witness for C8 at concrete descriptors: a duplicated `release` tag is
fatal, and a well-formed descriptor parses to its non-`patch` entries. -/
theorem c8_witness :
    (∃ e, read_ojs_version_file
        [("release", "3.3.0.1"), ("date", "d"), ("release", "3.3.0.2")]
      = Except.error e)
    ∧ read_ojs_version_file
        [("release", "3.3.0.1"), ("patch", "p"), ("date", "d")]
      = Except.ok [("release", "3.3.0.1"), ("date", "d")] :=
  ⟨(c8_read_ojs_version_file
      [("release", "3.3.0.1"), ("date", "d"), ("release", "3.3.0.2")]).2.1
    "release" (by decide) (by decide),
   by
    have h := (c8_read_ojs_version_file
      [("release", "3.3.0.1"), ("patch", "p"), ("date", "d")]).2.2.1
      (by decide)
    simpa using h⟩

/-! ## C7: `toggle_installed` -/

theorem toggleLine_of_not_installed {l : String}
    (h : isInstalledLine l = false) : toggleLine l = l := by
  rw [isInstalledLine, Bool.or_eq_false_iff] at h
  rw [toggleLine, if_neg (by simp [h.1]), if_neg (by simp [h.2])]

theorem matchesInstalledEq_semicolon (tgt : List Char) {l : String}
    (h : l.data.head? = some ';') : matchesInstalledEq tgt l = false := by
  rw [matchesInstalledEq]
  cases hd : l.data with
  | nil => rw [hd] at h; simp at h
  | cons c cs =>
    rw [hd] at h
    simp only [List.head?_cons, Option.some.injEq] at h
    subst h
    have h1 : pyLower (';' :: cs) = ';' :: cs.map Char.toLower := by
      simp [pyLower]
    rw [h1]
    have h2 : dropWs (';' :: cs.map Char.toLower)
        = ';' :: cs.map Char.toLower := by
      rw [dropWs, if_neg (by simp [pySpace])]
    rw [h2]
    have h3 : matchLiteral (';' :: cs.map Char.toLower) "installed".data
        = none := by
      rw [show "installed".data = 'i' :: "nstalled".data from rfl]
      rw [matchLiteral, if_neg (by decide)]
    rw [h3]

theorem isInstalledLine_semicolon {l : String}
    (h : l.data.head? = some ';') : isInstalledLine l = false := by
  rw [isInstalledLine, matchesInstalledEq_semicolon _ h,
    matchesInstalledEq_semicolon _ h]
  rfl

/-- C7: on a configuration file whose lines are `pre ++ [instLine] ++ post`,
where `instLine` is the single `installed = On`/`installed = Off` line (no
line of `pre` or `post` matches the toggle patterns), a single application
of `toggle_installed` rewrites only the middle line and leaves every other
line — in particular every comment line beginning with `;` — byte-identical,
and applying it twice again differs from the original file at most in that
single line. -/
theorem c7_toggle_installed (pre post : List String) (instLine : String)
    (_hinst : isInstalledLine instLine = true)
    (hpre : ∀ l ∈ pre, isInstalledLine l = false)
    (hpost : ∀ l ∈ post, isInstalledLine l = false) :
    toggle_installed (pre ++ instLine :: post)
      = pre ++ toggleLine instLine :: post
    ∧ toggle_installed (toggle_installed (pre ++ instLine :: post))
      = pre ++ toggleLine (toggleLine instLine) :: post
    ∧ (∀ l ∈ pre ++ instLine :: post, l.data.head? = some ';' →
        toggleLine l = l) := by
  have hmap : ∀ ls : List String, (∀ l ∈ ls, isInstalledLine l = false) →
      ls.map toggleLine = ls := by
    intro ls hls
    rw [show ls.map toggleLine = ls.map id from
      List.map_congr_left fun l hl => toggleLine_of_not_installed (hls l hl)]
    exact ls.map_id
  have h1 : toggle_installed (pre ++ instLine :: post)
      = pre ++ toggleLine instLine :: post := by
    rw [toggle_installed, List.map_append, List.map_cons, hmap pre hpre,
      hmap post hpost]
  refine ⟨h1, ?_, ?_⟩
  · rw [h1, toggle_installed, List.map_append, List.map_cons, hmap pre hpre,
      hmap post hpost]
  · intro l _ hl
    exact toggleLine_of_not_installed (isInstalledLine_semicolon hl)

/-- Witness for C7 on a concrete configuration file with a comment line, a
section header, the installed line and a further key line. -/
theorem c7_witness :
    toggle_installed
        ["; a comment\n", "[general]\n", "installed = On\n", "base_url = u\n"]
      = ["; a comment\n", "[general]\n", "installed = Off\n", "base_url = u\n"]
    ∧ toggle_installed (toggle_installed
        ["; a comment\n", "[general]\n", "installed = On\n", "base_url = u\n"])
      = ["; a comment\n", "[general]\n", "installed = On\n", "base_url = u\n"] := by
  have h := c7_toggle_installed ["; a comment\n", "[general]\n"]
    ["base_url = u\n"] "installed = On\n" (by decide)
    (by decide) (by decide)
  obtain ⟨h1, h2, _⟩ := h
  constructor
  · rw [show (["; a comment\n", "[general]\n"] : List String)
        ++ "installed = On\n" :: ["base_url = u\n"]
      = ["; a comment\n", "[general]\n", "installed = On\n", "base_url = u\n"]
      from rfl] at h1
    rw [h1]
    decide
  · rw [show (["; a comment\n", "[general]\n"] : List String)
        ++ "installed = On\n" :: ["base_url = u\n"]
      = ["; a comment\n", "[general]\n", "installed = On\n", "base_url = u\n"]
      from rfl] at h2
    rw [h2]
    decide

/-! ## C4: `Updater._read_version_folder` -/

theorem readVersionFolder_keys_nodup (items : List RefItem) :
    ∀ acc : List (Nat × RefItem), ((acc.map Prod.fst).Nodup) →
      (((items.foldl (fun versions item =>
          if item.isDir then
            if item.isOjsDir then dictInsert versions item.version item
            else versions
          else versions) acc).map Prod.fst).Nodup) := by
  induction items with
  | nil => intro acc h; simpa using h
  | cons it rest ih =>
    intro acc h
    rw [List.foldl_cons]
    apply ih
    by_cases h1 : it.isDir <;> by_cases h2 : it.isOjsDir <;>
      simp [h1, h2, h, dictInsert_keys_nodup]

/-- C4 (amended): the catalog scan keeps at most one reference instance per
distinct version — because `versions` is a dict — but a duplicated version
is *not* a construction error: the scan succeeds and the instance scanned
later silently replaces the earlier one (plain dict assignment). -/
theorem c4_read_version_folder (items : List RefItem) (item : RefItem)
    (hdir : item.isDir = true) (hojs : item.isOjsDir = true) :
    ((read_version_folder items).map Prod.fst).Nodup
    ∧ lookupKey item.version (read_version_folder (items ++ [item]))
        = some item := by
  constructor
  · exact readVersionFolder_keys_nodup items [] (by simp)
  · rw [read_version_folder, List.foldl_append, List.foldl_cons,
      List.foldl_nil, hdir, hojs]
    simp only [if_true]
    exact lookupKey_dictInsert_self _ _ _

/-- Counterexample for C4 as stated: a version folder with two valid
installation directories that declare the same version `5` does not make the
scan fail; it returns a mapping in which the second instance has silently
replaced the first. -/
theorem c4_counterexample :
    read_version_folder
        [{ isDir := true, isOjsDir := true, version := 5, tid := 1 },
         { isDir := true, isOjsDir := true, version := 5, tid := 2 }]
      = [(5, { isDir := true, isOjsDir := true, version := 5, tid := 2 })]
    ∧ ({ isDir := true, isOjsDir := true, version := 5, tid := 1 } : RefItem)
      ≠ { isDir := true, isOjsDir := true, version := 5, tid := 2 } := by
  decide

/-- Witness for C4 (amended) at a concrete scan. -/
theorem c4_witness :
    ((read_version_folder
        [{ isDir := true, isOjsDir := true, version := 3, tid := 1 },
         { isDir := false, isOjsDir := false, version := 3, tid := 2 }]).map
      Prod.fst).Nodup
    ∧ lookupKey 4
        (read_version_folder
          ([{ isDir := true, isOjsDir := true, version := 3, tid := 1 }]
            ++ [{ isDir := true, isOjsDir := true, version := 4, tid := 9 }]))
      = some { isDir := true, isOjsDir := true, version := 4, tid := 9 } :=
  ⟨(c4_read_version_folder
      [{ isDir := true, isOjsDir := true, version := 3, tid := 1 },
       { isDir := false, isOjsDir := false, version := 3, tid := 2 }]
      { isDir := true, isOjsDir := true, version := 4, tid := 9 }
      rfl rfl).1,
   (c4_read_version_folder
      [{ isDir := true, isOjsDir := true, version := 3, tid := 1 }]
      { isDir := true, isOjsDir := true, version := 4, tid := 9 }
      rfl rfl).2⟩

/-! ## C3: `dump_database` in debug mode -/

/-- C3 (amended): in debug mode, with an existing destination and a
supported driver, `dump_database` does not write the archive to disk — but
it still records the backup path under the database kind (line 204 is
outside the `if not debug` guard), and it still runs the dumper. -/
theorem c3_dump_database_debug (s : Settings) (st : UpdSt)
    (hdebug : s.debug = true) (hdest : s.destDbExists = true)
    (hdrv : lookupKey s.driver DUMPERS = some ()) :
    (dump_database s st).2 = none
    ∧ (dump_database s st).1.dbDisk = st.dbDisk
    ∧ (dump_database s st).1.wwwDisk = st.wwwDisk
    ∧ lookupKey s.dbBackupKey (dump_database s st).1.backups
        = some (dbArchivePath s) := by
  simp [dump_database, hdebug, hdest, hdrv, lookupKey_dictInsert_self]

/-- Counterexample for C3 as stated: a concrete debug-mode dump with an
existing destination and the `mysqli` driver records the backup path under
the database kind, while the claim asserts no path is recorded (the archive
itself is indeed not written). -/
theorem c3_counterexample :
    (dump_database
        { debug := true, force := false, timestamp := "20210604_1250",
          ojsBackupDb := "/ojs/backup/db", ojsBackupWww := "/ojs/backup/www",
          dbBackupKey := "db", wwwBackupKey := "www", driver := "mysqli",
          dbName := "ojs", instanceName := "journal",
          destDbExists := true, destWwwExists := true }
        { trace := [], backups := [], dbDisk := [], wwwDisk := [],
          dbState := 7, liveTree := some { tid := 1, installed := true } }).1.backups
      = [("db", "/ojs/backup/db/journal_20210604_1250.tar.bz2")]
    ∧ (dump_database
        { debug := true, force := false, timestamp := "20210604_1250",
          ojsBackupDb := "/ojs/backup/db", ojsBackupWww := "/ojs/backup/www",
          dbBackupKey := "db", wwwBackupKey := "www", driver := "mysqli",
          dbName := "ojs", instanceName := "journal",
          destDbExists := true, destWwwExists := true }
        { trace := [], backups := [], dbDisk := [], wwwDisk := [],
          dbState := 7, liveTree := some { tid := 1, installed := true } }).1.dbDisk
      = [] := by
  decide

/-- Witness for C3 (amended) at a concrete debug-mode dump. -/
theorem c3_witness :
    (dump_database
        { debug := true, force := false, timestamp := "t1",
          ojsBackupDb := "/d", ojsBackupWww := "/w",
          dbBackupKey := "db", wwwBackupKey := "www", driver := "mysql",
          dbName := "n", instanceName := "j",
          destDbExists := true, destWwwExists := true }
        { trace := [], backups := [], dbDisk := [], wwwDisk := [],
          dbState := 3, liveTree := none }).2 = none
    ∧ lookupKey "db"
        (dump_database
          { debug := true, force := false, timestamp := "t1",
            ojsBackupDb := "/d", ojsBackupWww := "/w",
            dbBackupKey := "db", wwwBackupKey := "www", driver := "mysql",
            dbName := "n", instanceName := "j",
            destDbExists := true, destWwwExists := true }
          { trace := [], backups := [], dbDisk := [], wwwDisk := [],
            dbState := 3, liveTree := none }).1.backups
      = some (dbArchivePath
          { debug := true, force := false, timestamp := "t1",
            ojsBackupDb := "/d", ojsBackupWww := "/w",
            dbBackupKey := "db", wwwBackupKey := "www", driver := "mysql",
            dbName := "n", instanceName := "j",
            destDbExists := true, destWwwExists := true }) :=
  ⟨(c3_dump_database_debug
      { debug := true, force := false, timestamp := "t1",
        ojsBackupDb := "/d", ojsBackupWww := "/w",
        dbBackupKey := "db", wwwBackupKey := "www", driver := "mysql",
        dbName := "n", instanceName := "j",
        destDbExists := true, destWwwExists := true }
      { trace := [], backups := [], dbDisk := [], wwwDisk := [],
        dbState := 3, liveTree := none } rfl rfl rfl).1,
   (c3_dump_database_debug
      { debug := true, force := false, timestamp := "t1",
        ojsBackupDb := "/d", ojsBackupWww := "/w",
        dbBackupKey := "db", wwwBackupKey := "www", driver := "mysql",
        dbName := "n", instanceName := "j",
        destDbExists := true, destWwwExists := true }
      { trace := [], backups := [], dbDisk := [], wwwDisk := [],
        dbState := 3, liveTree := none } rfl rfl rfl).2.2.2⟩

/-! ## C2: early exit of `update` -/

/-- C2: when the resolved target version is in the catalog, the live
journal's version is greater than or equal to it and `force` is not set,
`update` only logs a warning and returns: the state is unchanged except for
that log line — no backup archive is created, nothing on disk is renamed,
copied or toggled, the `backups` dict stays as it was and no subprocess
(dumper or migration tool) runs. -/
theorem c2_update_early_exit (s : Settings) (env : Env) (journalVer : Nat)
    (arg : Option Nat) (v : Nat) (b : Bool) (st : UpdSt)
    (hres : resolve_version env.catalog arg = Except.ok v)
    (hmem : lookupKey v env.catalog = some b)
    (hge : journalVer ≥ v) (hforce : s.force = false) :
    update s env journalVer arg st
      = ({ st with trace := st.trace ++ [Eff.logWarn] }, none)
    ∧ (update s env journalVer arg st).1.backups = st.backups
    ∧ (update s env journalVer arg st).1.dbDisk = st.dbDisk
    ∧ (update s env journalVer arg st).1.wwwDisk = st.wwwDisk
    ∧ (update s env journalVer arg st).1.liveTree = st.liveTree
    ∧ (update s env journalVer arg st).1.dbState = st.dbState
    ∧ (∀ e ∈ (update s env journalVer arg st).1.trace,
        e ∈ st.trace ∨ e = Eff.logWarn) := by
  have h : update s env journalVer arg st
      = ({ st with trace := st.trace ++ [Eff.logWarn] }, none) := by
    rw [update, hres]
    simp [hmem, hge, hforce]
  refine ⟨h, ?_, ?_, ?_, ?_, ?_, ?_⟩ <;> rw [h]
  intro e he
  simpa using he

/-- Witness for C2: a concrete catalog with versions 3 and 5, a live
journal at version 5 and target 5, `force` unset. -/
theorem c2_witness :
    update
        { debug := false, force := false, timestamp := "t",
          ojsBackupDb := "/d", ojsBackupWww := "/w", dbBackupKey := "db",
          wwwBackupKey := "www", driver := "mysqli", dbName := "n",
          instanceName := "j", destDbExists := true, destWwwExists := true }
        { catalog := [(3, true), (5, true)], refTid := 8, dbMigrated := 1,
          dbAfterFail := 2, failAt := none }
        5 (some 5)
        { trace := [], backups := [], dbDisk := [], wwwDisk := [],
          dbState := 0, liveTree := some { tid := 1, installed := true } }
      = ({ trace := [Eff.logWarn], backups := [], dbDisk := [], wwwDisk := [],
           dbState := 0, liveTree := some { tid := 1, installed := true } },
         none) := by
  have h := (c2_update_early_exit
    { debug := false, force := false, timestamp := "t",
      ojsBackupDb := "/d", ojsBackupWww := "/w", dbBackupKey := "db",
      wwwBackupKey := "www", driver := "mysqli", dbName := "n",
      instanceName := "j", destDbExists := true, destWwwExists := true }
    { catalog := [(3, true), (5, true)], refTid := 8, dbMigrated := 1,
      dbAfterFail := 2, failAt := none }
    5 (some 5) 5 true
    { trace := [], backups := [], dbDisk := [], wwwDisk := [],
      dbState := 0, liveTree := some { tid := 1, installed := true } }
    rfl (by decide) (by decide) rfl).1
  simpa using h

/-! ## C5: the reference guard comes after the early exit -/

/-- C5 (amended): the `NotAReference` guard is applied only *after* the
early-exit comparison.  When the live version is at least the target and
`force` is unset, `update` logs and returns normally even though the
catalog instance for the target is not a reference; the guard fires (with
`ValueError`, before any backup) only when the early exit does not return —
that is, when the live version is below the target, or when `force` is set. -/
theorem c5_reference_guard (s : Settings) (env : Env) (journalVer : Nat)
    (arg : Option Nat) (v : Nat) (st : UpdSt)
    (hres : resolve_version env.catalog arg = Except.ok v)
    (hmem : lookupKey v env.catalog = some false) :
    (journalVer ≥ v → s.force = false →
      update s env journalVer arg st
        = ({ st with trace := st.trace ++ [Eff.logWarn] }, none))
    ∧ (journalVer < v →
      update s env journalVer arg st = (st, some Err.valueError))
    ∧ (journalVer ≥ v → s.force = true →
      update s env journalVer arg st
        = ({ st with trace := st.trace ++ [Eff.logWarn, Eff.logWarn] },
           some Err.valueError)) := by
  refine ⟨?_, ?_, ?_⟩
  · intro hge hforce
    rw [update, hres]
    simp [hmem, hge, hforce]
  · intro hlt
    rw [update, hres]
    simp [hmem, Nat.not_le.mpr hlt, updateAfterGuards]
  · intro hge hforce
    rw [update, hres]
    simp [hmem, hge, hforce, updateAfterGuards]

/-- Counterexample for C5 as stated: with a non-reference catalog entry for
version 5, a live journal already at version 5 and no `force`, `update`
returns without any error — it does not fail with `NotAReference` before
the early-exit comparison. -/
theorem c5_counterexample :
    (update
        { debug := false, force := false, timestamp := "t",
          ojsBackupDb := "/d", ojsBackupWww := "/w", dbBackupKey := "db",
          wwwBackupKey := "www", driver := "mysqli", dbName := "n",
          instanceName := "j", destDbExists := true, destWwwExists := true }
        { catalog := [(5, false)], refTid := 8, dbMigrated := 1,
          dbAfterFail := 2, failAt := none }
        5 (some 5)
        { trace := [], backups := [], dbDisk := [], wwwDisk := [],
          dbState := 0, liveTree := some { tid := 1, installed := true } }).2
      = none := by
  decide

/-- Witness for C5 (amended): the guard does fire, with `ValueError` and an
unchanged state, when the live version is below the non-reference target. -/
theorem c5_witness :
    update
        { debug := false, force := false, timestamp := "t",
          ojsBackupDb := "/d", ojsBackupWww := "/w", dbBackupKey := "db",
          wwwBackupKey := "www", driver := "mysqli", dbName := "n",
          instanceName := "j", destDbExists := true, destWwwExists := true }
        { catalog := [(5, false)], refTid := 8, dbMigrated := 1,
          dbAfterFail := 2, failAt := none }
        4 (some 5)
        { trace := [], backups := [], dbDisk := [], wwwDisk := [],
          dbState := 0, liveTree := some { tid := 1, installed := true } }
      = ({ trace := [], backups := [], dbDisk := [], wwwDisk := [],
           dbState := 0, liveTree := some { tid := 1, installed := true } },
         some Err.valueError) :=
  (c5_reference_guard
    { debug := false, force := false, timestamp := "t",
      ojsBackupDb := "/d", ojsBackupWww := "/w", dbBackupKey := "db",
      wwwBackupKey := "www", driver := "mysqli", dbName := "n",
      instanceName := "j", destDbExists := true, destWwwExists := true }
    { catalog := [(5, false)], refTid := 8, dbMigrated := 1,
      dbAfterFail := 2, failAt := none }
    4 (some 5) 5
    { trace := [], backups := [], dbDisk := [], wwwDisk := [],
      dbState := 0, liveTree := some { tid := 1, installed := true } }
    rfl (by decide)).2.1 (by decide)

/-! ## C10: `_rewind` with only one recorded backup kind -/

/-- C10: when `Instance.backups` is non-empty but lacks one of the two
kinds, `_rewind` raises `KeyError` while fetching the missing kind (the
database path is fetched first, then the files path), before any restore
step: the state is unchanged except for the initial log line — in
particular the database contents and the live directory tree are left
untouched. -/
theorem c10_rewind_requires_both (s : Settings) (st : UpdSt)
    (hne : st.backups ≠ []) :
    (lookupKey s.dbBackupKey st.backups = none →
      rewind s st
        = ({ st with trace := st.trace ++ [Eff.logInfo] }, some Err.keyError)
      ∧ (rewind s st).1.dbState = st.dbState
      ∧ (rewind s st).1.liveTree = st.liveTree)
    ∧ (∀ p, lookupKey s.dbBackupKey st.backups = some p →
        lookupKey s.wwwBackupKey st.backups = none →
        rewind s st
          = ({ st with trace := st.trace ++ [Eff.logInfo] }, some Err.keyError)
        ∧ (rewind s st).1.dbState = st.dbState
        ∧ (rewind s st).1.liveTree = st.liveTree) := by
  constructor
  · intro hdb
    have h : rewind s st
        = ({ st with trace := st.trace ++ [Eff.logInfo] }, some Err.keyError) := by
      rw [rewind, if_neg hne]
      simp [hdb]
    exact ⟨h, by rw [h], by rw [h]⟩
  · intro p hdb hwww
    have h : rewind s st
        = ({ st with trace := st.trace ++ [Eff.logInfo] }, some Err.keyError) := by
      rw [rewind, if_neg hne]
      simp [hdb, hwww]
    exact ⟨h, by rw [h], by rw [h]⟩

/-- Witness for C10: a `backups` dict holding only the files kind, and one
holding only the database kind. -/
theorem c10_witness :
    (rewind
        { debug := false, force := false, timestamp := "t",
          ojsBackupDb := "/d", ojsBackupWww := "/w", dbBackupKey := "db",
          wwwBackupKey := "www", driver := "mysqli", dbName := "n",
          instanceName := "j", destDbExists := true, destWwwExists := true }
        { trace := [], backups := [("www", "/w/j_t.tar.bz2")], dbDisk := [],
          wwwDisk := [], dbState := 4,
          liveTree := some { tid := 2, installed := true } }).2
      = some Err.keyError
    ∧ (rewind
        { debug := false, force := false, timestamp := "t",
          ojsBackupDb := "/d", ojsBackupWww := "/w", dbBackupKey := "db",
          wwwBackupKey := "www", driver := "mysqli", dbName := "n",
          instanceName := "j", destDbExists := true, destWwwExists := true }
        { trace := [], backups := [("db", "/d/j_t.tar.bz2")], dbDisk := [],
          wwwDisk := [], dbState := 4,
          liveTree := some { tid := 2, installed := true } }).2
      = some Err.keyError := by
  constructor
  · have h := ((c10_rewind_requires_both
      { debug := false, force := false, timestamp := "t",
        ojsBackupDb := "/d", ojsBackupWww := "/w", dbBackupKey := "db",
        wwwBackupKey := "www", driver := "mysqli", dbName := "n",
        instanceName := "j", destDbExists := true, destWwwExists := true }
      { trace := [], backups := [("www", "/w/j_t.tar.bz2")], dbDisk := [],
        wwwDisk := [], dbState := 4,
        liveTree := some { tid := 2, installed := true } }
      (by decide)).1 (by decide)).1
    rw [h]
  · have h := ((c10_rewind_requires_both
      { debug := false, force := false, timestamp := "t",
        ojsBackupDb := "/d", ojsBackupWww := "/w", dbBackupKey := "db",
        wwwBackupKey := "www", driver := "mysqli", dbName := "n",
        instanceName := "j", destDbExists := true, destWwwExists := true }
      { trace := [], backups := [("db", "/d/j_t.tar.bz2")], dbDisk := [],
        wwwDisk := [], dbState := 4,
        liveTree := some { tid := 2, installed := true } }
      (by decide)).2 "/d/j_t.tar.bz2" (by decide) (by decide)).1
    rw [h]

/-! ## C1: failure inside the protected scope, rollback and suppression -/

theorem dictInsert_ne_nil {κ α : Type} [DecidableEq κ]
    (m : List (κ × α)) (k : κ) (v : α) : dictInsert m k v ≠ [] := by
  cases m with
  | nil => simp [dictInsert]
  | cons p rest =>
    obtain ⟨k', v'⟩ := p
    by_cases h : k' = k <;> simp [dictInsert, h]

theorem strEndsWith_tarbz2 (s : String) :
    strEndsWith (s ++ ".tar.bz2") ".bz2" = true := by
  rw [strEndsWith, String.data_append]
  rw [show (".tar.bz2".data) = ['.', 't', 'a', 'r', '.', 'b', 'z', '2'] from rfl,
    show (".bz2".data) = ['.', 'b', 'z', '2'] from rfl]
  have hlen : (s.data ++ ['.', 't', 'a', 'r', '.', 'b', 'z', '2']).length
      - (['.', 'b', 'z', '2'] : List Char).length = s.data.length + 4 := by
    simp
  rw [hlen, show s.data.length + 4 = s.data.length + 4 from rfl]
  rw [List.drop_append 4]
  rfl

theorem wwwArchivePath_bz2 (s : Settings) :
    strEndsWith (wwwArchivePath s) ".bz2" = true :=
  strEndsWith_tarbz2 _

theorem dbArchivePath_bz2 (s : Settings) :
    strEndsWith (dbArchivePath s) ".bz2" = true :=
  strEndsWith_tarbz2 _

theorem instanceBackup_spec (s : Settings) (st : UpdSt) (t0 : LiveTree)
    (hdebug : s.debug = false) (hwww : s.destWwwExists = true)
    (hdb : s.destDbExists = true)
    (hdrv : lookupKey s.driver DUMPERS = some ())
    (hlive : st.liveTree = some t0) :
    instanceBackup s st
      = ({ trace := st.trace
              ++ [Eff.archiveFilesEff, Eff.dumpDbEff, Eff.writeDbArchiveEff],
           backups := dictInsert
              (dictInsert st.backups s.wwwBackupKey (wwwArchivePath s))
              s.dbBackupKey (dbArchivePath s),
           dbDisk := dictInsert st.dbDisk (dbArchivePath s) st.dbState,
           wwwDisk := dictInsert st.wwwDisk (wwwArchivePath s) t0,
           dbState := st.dbState,
           liveTree := some t0 }, none) := by
  rw [instanceBackup, archive_files]
  rw [if_neg (by simp [hwww]), hlive]
  simp only [hdebug, Bool.not_false, if_true]
  rw [dump_database]
  rw [if_neg (by simp [hdb])]
  simp [hdrv, hlive, hdebug]

/-- C1 (amended): if any statement of the protected scope fails while not in
debug mode, a best-effort rewind runs — the database is restored from the
dump recorded by the backup, the live directory is removed and re-expanded
from the files backup — but the original failure is then *suppressed* by
the `lock` context manager (its `except` block never re-raises, so
`contextlib` treats the exception as handled): `update` returns normally
and no error reaches its caller. -/
theorem c1_rollback_suppresses (s : Settings) (env : Env) (journalVer : Nat)
    (arg : Option Nat) (v : Nat) (st : UpdSt) (t0 : LiveTree) (step : BodyStep)
    (hres : resolve_version env.catalog arg = Except.ok v)
    (hmem : lookupKey v env.catalog = some true)
    (hlt : journalVer < v)
    (hdebug : s.debug = false)
    (hdrv : lookupKey s.driver DUMPERS = some ())
    (hres2 : lookupKey s.driver DATABASE_IMPORT = some ())
    (hwww : s.destWwwExists = true) (hdb : s.destDbExists = true)
    (hlive : st.liveTree = some t0)
    (hkeys : s.dbBackupKey ≠ s.wwwBackupKey)
    (hfail : env.failAt = some step) :
    (update s env journalVer arg st).2 = none
    ∧ (update s env journalVer arg st).1.liveTree = some t0
    ∧ (update s env journalVer arg st).1.dbState = st.dbState
    ∧ Eff.logCritical ∈ (update s env journalVer arg st).1.trace
    ∧ Eff.restoreDbEff (some st.dbState) ∈ (update s env journalVer arg st).1.trace
    ∧ Eff.extractFilesBackupEff ∈ (update s env journalVer arg st).1.trace := by
  have hwkey : s.wwwBackupKey ≠ s.dbBackupKey := Ne.symm hkeys
  have h1 : update s env journalVer arg st = updateAfterGuards s env st v := by
    rw [update, hres]
    simp [hmem, Nat.not_le.mpr hlt]
  have hib := instanceBackup_spec s { st with trace := st.trace ++ [Eff.logInfo] }
    t0 hdebug hwww hdb hdrv (by simpa using hlive)
  have h2 : updateAfterGuards s env st v
      = runLocked s (updateBody env)
          ({ trace := st.trace
                ++ [Eff.logInfo, Eff.archiveFilesEff, Eff.dumpDbEff,
                    Eff.writeDbArchiveEff],
             backups := dictInsert
                (dictInsert st.backups s.wwwBackupKey (wwwArchivePath s))
                s.dbBackupKey (dbArchivePath s),
             dbDisk := dictInsert st.dbDisk (dbArchivePath s) st.dbState,
             wwwDisk := dictInsert st.wwwDisk (wwwArchivePath s) t0,
             dbState := st.dbState,
             liveTree := some t0 }) := by
    rw [updateAfterGuards, hmem]
    simp only [Bool.not_true, Bool.false_eq_true, if_false, ite_false,
      reduceIte]
    rw [hib]
    simp [List.append_assoc]
  rw [h1, h2, runLocked]
  cases step <;>
    simp only [updateBody, hfail, toggleInstalledState, reduceCtorEq,
      Option.some.injEq, if_true, if_false, ite_true, ite_false, hdebug,
      Bool.not_false, reduceIte] <;>
  · rw [rewind]
    rw [if_neg (dictInsert_ne_nil _ _ _)]
    simp only [lookupKey_dictInsert_self,
      lookupKey_dictInsert_ne _ _ hwkey, dbArchivePath_bz2,
      wwwArchivePath_bz2, if_true, hres2, Option.isNone_some,
      Bool.false_eq_true, if_false, ite_false, ite_true]
    simp [List.mem_append]

/-- Counterexample for C1 as stated: a concrete run in which the
database-migration call fails (two backups recorded beforehand) performs
the rewind — the trace shows the critical log, the database restore from
the extracted dump and the re-expansion of the files backup — and then
`update` returns `none` as its error component: the original failure does
*not* propagate to the caller. -/
theorem c1_counterexample :
    (update
        { debug := false, force := false, timestamp := "ts",
          ojsBackupDb := "/b/db", ojsBackupWww := "/b/www",
          dbBackupKey := "db", wwwBackupKey := "www", driver := "mysqli",
          dbName := "ojs", instanceName := "j",
          destDbExists := true, destWwwExists := true }
        { catalog := [(2, true)], refTid := 7, dbMigrated := 99,
          dbAfterFail := 55, failAt := some BodyStep.upgradeDb }
        1 none
        { trace := [], backups := [], dbDisk := [], wwwDisk := [],
          dbState := 5, liveTree := some { tid := 1, installed := true } }).2
      = none
    ∧ Eff.logCritical ∈ (update
        { debug := false, force := false, timestamp := "ts",
          ojsBackupDb := "/b/db", ojsBackupWww := "/b/www",
          dbBackupKey := "db", wwwBackupKey := "www", driver := "mysqli",
          dbName := "ojs", instanceName := "j",
          destDbExists := true, destWwwExists := true }
        { catalog := [(2, true)], refTid := 7, dbMigrated := 99,
          dbAfterFail := 55, failAt := some BodyStep.upgradeDb }
        1 none
        { trace := [], backups := [], dbDisk := [], wwwDisk := [],
          dbState := 5, liveTree := some { tid := 1, installed := true } }).1.trace
    ∧ (update
        { debug := false, force := false, timestamp := "ts",
          ojsBackupDb := "/b/db", ojsBackupWww := "/b/www",
          dbBackupKey := "db", wwwBackupKey := "www", driver := "mysqli",
          dbName := "ojs", instanceName := "j",
          destDbExists := true, destWwwExists := true }
        { catalog := [(2, true)], refTid := 7, dbMigrated := 99,
          dbAfterFail := 55, failAt := some BodyStep.upgradeDb }
        1 none
        { trace := [], backups := [], dbDisk := [], wwwDisk := [],
          dbState := 5, liveTree := some { tid := 1, installed := true } }).1.liveTree
      = some { tid := 1, installed := true } := by
  decide

/-- Witness for C1 (amended) at the same concrete failing run. -/
theorem c1_witness :
    (update
        { debug := false, force := false, timestamp := "ts",
          ojsBackupDb := "/b/db", ojsBackupWww := "/b/www",
          dbBackupKey := "db", wwwBackupKey := "www", driver := "mysqli",
          dbName := "ojs", instanceName := "j",
          destDbExists := true, destWwwExists := true }
        { catalog := [(2, true)], refTid := 7, dbMigrated := 99,
          dbAfterFail := 55, failAt := some BodyStep.toggleOff }
        1 none
        { trace := [], backups := [], dbDisk := [], wwwDisk := [],
          dbState := 5, liveTree := some { tid := 1, installed := true } }).2
      = none
    ∧ (update
        { debug := false, force := false, timestamp := "ts",
          ojsBackupDb := "/b/db", ojsBackupWww := "/b/www",
          dbBackupKey := "db", wwwBackupKey := "www", driver := "mysqli",
          dbName := "ojs", instanceName := "j",
          destDbExists := true, destWwwExists := true }
        { catalog := [(2, true)], refTid := 7, dbMigrated := 99,
          dbAfterFail := 55, failAt := some BodyStep.toggleOff }
        1 none
        { trace := [], backups := [], dbDisk := [], wwwDisk := [],
          dbState := 5, liveTree := some { tid := 1, installed := true } }).1.dbState
      = 5 := by
  have h := c1_rollback_suppresses
    { debug := false, force := false, timestamp := "ts",
      ojsBackupDb := "/b/db", ojsBackupWww := "/b/www",
      dbBackupKey := "db", wwwBackupKey := "www", driver := "mysqli",
      dbName := "ojs", instanceName := "j",
      destDbExists := true, destWwwExists := true }
    { catalog := [(2, true)], refTid := 7, dbMigrated := 99,
      dbAfterFail := 55, failAt := some BodyStep.toggleOff }
    1 none 2
    { trace := [], backups := [], dbDisk := [], wwwDisk := [],
      dbState := 5, liveTree := some { tid := 1, installed := true } }
    { tid := 1, installed := true } BodyStep.toggleOff
    rfl (by decide) (by decide) rfl (by decide) (by decide) rfl rfl rfl
    (by decide) rfl
  exact ⟨h.1, h.2.2.1⟩

/-! ## C6: the public-folder guard of `upgrade_journal_folder` -/

/-- C6 (amended): after the reference tree has been copied into the live
path, a `public` folder whose listing is anything other than exactly
`[index.html]` makes `upgrade_journal_folder` fail — with the
`NonEmptyNewPublicFolder` `ValueError` when the listing is non-empty, but
with an `IndexError` (from `files[0]` on an empty list) when the listing is
empty — and in every such failure the live instance's original files are
still present at the renamed old-tree path `<name>_<timestamp>`. -/
theorem c6_public_folder_guard (refTree : DirTree) (files : List String)
    (st : FolderSt) (oldTree : DirTree)
    (hpub : refTree.publicFiles = some files)
    (hni : files ≠ ["index.html"])
    (hlive : st.liveSlot = some oldTree) :
    upgradeFolderPublicPhase (some refTree) true st
      = ({ liveSlot := some refTree, oldSlot := some oldTree },
         some (if files = [] then Err.indexError else Err.valueError)) := by
  rw [upgradeFolderPublicPhase]
  simp only [if_true, hlive, hpub]
  match files, hni with
  | [], _ => simp
  | [f], hni =>
    have hf : f ≠ "index.html" := by
      intro hh
      exact hni (by rw [hh])
    simp [hf]
  | f :: g :: rest, _ =>
    have hlen : (f :: g :: rest).length > 1 := by simp
    simp [hlen]

/-- Counterexample for C6 as stated: with a reference tree whose copied
`public` folder is empty the failure is an `IndexError`, not the
`NonEmptyNewPublicFolder` `ValueError` the claim names (the old tree is
indeed still present under its renamed name). -/
theorem c6_counterexample :
    upgradeFolderPublicPhase
        (some { tid := 7, publicFiles := some [] }) true
        { liveSlot := some { tid := 1, publicFiles := some ["a.txt"] },
          oldSlot := none }
      = ({ liveSlot := some { tid := 7, publicFiles := some [] },
           oldSlot := some { tid := 1, publicFiles := some ["a.txt"] } },
         some Err.indexError)
    ∧ Err.indexError ≠ Err.valueError := by
  decide

/-- Witness for C6 (amended): a two-entry `public` listing fails with the
`ValueError` and leaves the old tree in its renamed slot. -/
theorem c6_witness :
    upgradeFolderPublicPhase
        (some { tid := 7, publicFiles := some ["index.html", "extra.png"] })
        true
        { liveSlot := some { tid := 1, publicFiles := some ["a.txt"] },
          oldSlot := none }
      = ({ liveSlot :=
             some { tid := 7, publicFiles := some ["index.html", "extra.png"] },
           oldSlot := some { tid := 1, publicFiles := some ["a.txt"] } },
         some Err.valueError) := by
  have h := c6_public_folder_guard
    { tid := 7, publicFiles := some ["index.html", "extra.png"] }
    ["index.html", "extra.png"]
    { liveSlot := some { tid := 1, publicFiles := some ["a.txt"] },
      oldSlot := none }
    { tid := 1, publicFiles := some ["a.txt"] }
    rfl (by decide) rfl
  simpa using h

/-! ## C9: the custom-file carry-over -/

theorem migrateCustomPath_keeps_some (old : FS) (suffix : String)
    (acc : FS × List RPath) (q r : RPath) (v : Entry)
    (h1 : r ≠ q) (h2 : r ≠ addSuffix suffix q)
    (hv : acc.1 r = some v) :
    (migrateCustomPath old suffix acc q).1 r = some v := by
  rw [migrateCustomPath]
  have ht1 :
      (if (acc.1 q).isSome then
        (fun p =>
          if p = q then none
          else if p = addSuffix suffix q then acc.1 q
          else acc.1 p : FS)
      else if entryIsFile (old q) && (acc.1 q.dropLast).isNone then
        (fun p => if p = q.dropLast then some (Entry.dir 0) else acc.1 p : FS)
      else acc.1) r = some v := by
    by_cases hq : (acc.1 q).isSome
    · simp [hq, h1, h2, hv]
    · simp only [hq, if_false, ite_false, Bool.false_eq_true]
      by_cases hmk : entryIsFile (old q) && (acc.1 q.dropLast).isNone
      · simp only [hmk, if_true, ite_true]
        by_cases hdl : r = q.dropLast
        · subst hdl
          rw [hv] at hmk
          simp at hmk
        · simp [hdl, hv]
      · simp [hmk, hv]
  cases hsrc : old q with
  | none => simpa [hsrc] using ht1
  | some e =>
    rw [hsrc] at ht1
    simp only [hsrc]
    simpa [h1] using ht1

theorem migrateCustomPath_frame (old : FS) (suffix : String)
    (acc : FS × List RPath) (q r : RPath)
    (h1 : r ≠ q) (h2 : r ≠ addSuffix suffix q) (h3 : r ≠ q.dropLast) :
    (migrateCustomPath old suffix acc q).1 r = acc.1 r := by
  rw [migrateCustomPath]
  have ht1 :
      (if (acc.1 q).isSome then
        (fun p =>
          if p = q then none
          else if p = addSuffix suffix q then acc.1 q
          else acc.1 p : FS)
      else if entryIsFile (old q) && (acc.1 q.dropLast).isNone then
        (fun p => if p = q.dropLast then some (Entry.dir 0) else acc.1 p : FS)
      else acc.1) r = acc.1 r := by
    by_cases hq : (acc.1 q).isSome
    · simp [hq, h1, h2]
    · simp only [hq, if_false, ite_false, Bool.false_eq_true]
      by_cases hmk : entryIsFile (old q) && (acc.1 q.dropLast).isNone
      · simp [hmk, h3]
      · simp [hmk]
  cases hsrc : old q with
  | none => simpa [hsrc] using ht1
  | some e =>
    rw [hsrc] at ht1
    simp only [hsrc]
    simpa [h1] using ht1

theorem migrateCustomPaths_keeps_some (old : FS) (suffix : String)
    (r : RPath) (v : Entry) :
    ∀ (fs : List RPath) (acc : FS × List RPath),
      (∀ q ∈ fs, r ≠ q ∧ r ≠ addSuffix suffix q) →
      acc.1 r = some v →
      (List.foldl (migrateCustomPath old suffix) acc fs).1 r = some v := by
  intro fs
  induction fs with
  | nil => intro acc _ hv; simpa using hv
  | cons q rest ih =>
    intro acc hq hv
    rw [List.foldl_cons]
    exact ih _ (fun q' hq' => hq q' (List.mem_cons_of_mem _ hq'))
      (migrateCustomPath_keeps_some old suffix acc q r v
        (hq q (List.mem_cons_self _ _)).1
        (hq q (List.mem_cons_self _ _)).2 hv)

theorem migrateCustomPaths_frame (old : FS) (suffix : String) (r : RPath) :
    ∀ (fs : List RPath) (acc : FS × List RPath),
      (∀ q ∈ fs, r ≠ q ∧ r ≠ addSuffix suffix q ∧ r ≠ q.dropLast) →
      (List.foldl (migrateCustomPath old suffix) acc fs).1 r = acc.1 r := by
  intro fs
  induction fs with
  | nil => intro acc _; rfl
  | cons q rest ih =>
    intro acc hq
    rw [List.foldl_cons]
    rw [ih _ (fun q' hq' => hq q' (List.mem_cons_of_mem _ hq'))]
    exact migrateCustomPath_frame old suffix acc q r
      (hq q (List.mem_cons_self _ _)).1
      (hq q (List.mem_cons_self _ _)).2.1
      (hq q (List.mem_cons_self _ _)).2.2

theorem migrateCustomPaths_warnings (old : FS) (suffix : String) :
    ∀ (fs : List RPath) (acc : FS × List RPath),
      (List.foldl (migrateCustomPath old suffix) acc fs).2
        = acc.2 ++ fs.filter (fun p => (old p).isNone) := by
  intro fs
  induction fs with
  | nil => intro acc; simp
  | cons q rest ih =>
    intro acc
    rw [List.foldl_cons, ih]
    cases hsrc : old q with
    | none =>
      have hstep : (migrateCustomPath old suffix acc q).2 = acc.2 ++ [q] := by
        rw [migrateCustomPath]
        simp [hsrc]
      rw [hstep]
      simp [List.filter_cons, hsrc]
    | some e =>
      have hstep : (migrateCustomPath old suffix acc q).2 = acc.2 := by
        rw [migrateCustomPath]
        simp [hsrc]
      rw [hstep]
      simp [List.filter_cons, hsrc]

theorem migrateCustomPath_copies (old : FS) (suffix : String)
    (acc : FS × List RPath) (p : RPath) (e : Entry) (he : old p = some e) :
    (migrateCustomPath old suffix acc p).1 p = some e := by
  rw [migrateCustomPath]
  simp [he]

theorem migrateCustomPath_moves_aside (old : FS) (suffix : String)
    (acc : FS × List RPath) (p : RPath) (d : Entry)
    (hd : acc.1 p = some d) (hne : addSuffix suffix p ≠ p) :
    (migrateCustomPath old suffix acc p).1 (addSuffix suffix p) = some d := by
  rw [migrateCustomPath]
  have hq : (acc.1 p).isSome := by simp [hd]
  have ht1 :
      (if (acc.1 p).isSome then
        (fun q =>
          if q = p then none
          else if q = addSuffix suffix p then acc.1 p
          else acc.1 q : FS)
      else if entryIsFile (old p) && (acc.1 p.dropLast).isNone then
        (fun q => if q = p.dropLast then some (Entry.dir 0) else acc.1 q : FS)
      else acc.1) (addSuffix suffix p) = some d := by
    simp [hq, hne, hd]
  cases hsrc : old p with
  | none => simpa [hsrc] using ht1
  | some e =>
    rw [hsrc] at ht1
    simp only [hsrc]
    simpa [hne] using ht1

theorem migrateCustomPath_makes_parent (old : FS) (suffix : String)
    (acc : FS × List RPath) (p : RPath)
    (hf : entryIsFile (old p) = true) (hnone : acc.1 p = none)
    (hne : p.dropLast ≠ p) :
    ((migrateCustomPath old suffix acc p).1 p.dropLast).isSome = true := by
  rw [migrateCustomPath]
  have hq : ¬ (acc.1 p).isSome := by simp [hnone]
  obtain ⟨d, hsrc⟩ : ∃ d, old p = some (Entry.file d) := by
    cases hval : old p with
    | none => rw [hval] at hf; simp [entryIsFile] at hf
    | some e =>
      cases e with
      | file d => exact ⟨d, rfl⟩
      | dir d => rw [hval] at hf; simp [entryIsFile] at hf
  have ht1 :
      ((if (acc.1 p).isSome then
        (fun q =>
          if q = p then none
          else if q = addSuffix suffix p then acc.1 p
          else acc.1 q : FS)
      else if entryIsFile (old p) && (acc.1 p.dropLast).isNone then
        (fun q => if q = p.dropLast then some (Entry.dir 0) else acc.1 q : FS)
      else acc.1) p.dropLast).isSome = true := by
    simp only [hq, if_false, ite_false, Bool.false_eq_true]
    by_cases hdl : (acc.1 p.dropLast).isNone
    · simp [hf, hdl]
    · have : (acc.1 p.dropLast).isSome := by
        cases hval : acc.1 p.dropLast with
        | none => rw [hval] at hdl; simp at hdl
        | some _ => simp
      by_cases hmk : entryIsFile (old p) && (acc.1 p.dropLast).isNone
      · simp [hmk, hne, this]
      · simpa [hmk] using this
  rw [hsrc] at ht1
  simp only [hsrc]
  simpa [hne] using ht1

theorem mem_split_of_nodup {p : RPath} {folders : List RPath}
    (hp : p ∈ folders) (hnd : folders.Nodup) :
    ∃ l₁ l₂, folders = l₁ ++ p :: l₂ ∧ p ∉ l₁ ∧ p ∉ l₂ := by
  obtain ⟨l₁, l₂, rfl⟩ := List.append_of_mem hp
  rw [List.nodup_append] at hnd
  obtain ⟨_, hnd2, hdisj⟩ := hnd
  refine ⟨l₁, l₂, rfl, ?_, (List.nodup_cons.mp hnd2).1⟩
  intro hmem
  exact hdisj hmem (List.mem_cons_self _ _)

/-- C9: during `upgrade_journal_folder`, the custom-file carry-over
processes exactly the deduplicated union of the paths registered under the
instance's name and under the wildcard key `all` (assuming, as the
non-interference hypotheses state, that no listed path is another listed
path's backup name and that backup names of distinct listed paths differ):
every listed path present in the old tree is copied into the new tree; an
already-existing destination is first renamed aside with the configured
suffix rather than overwritten; a missing destination parent directory ends
up present when the source is a file; a path whose source is missing is
exactly the one warned about and skipped without aborting the migration;
and every path that is neither listed nor a backup name nor a created
parent is untouched — no unlisted sibling is carried over. -/
theorem c9_custom_carry_over (cf : List (String × List RPath))
    (name suffix : String) (old t0 : FS) (folders : List RPath)
    (hfolders : folders = plugin_path_list cf name)
    (hbck : ∀ p ∈ folders, ∀ q ∈ folders, addSuffix suffix q ≠ p)
    (hsuf : ∀ p ∈ folders, ∀ q ∈ folders, p ≠ q →
        addSuffix suffix p ≠ addSuffix suffix q) :
    (∀ p, p ∈ folders ↔
        (p ∈ (match lookupKey "all" cf with | some ps => ps | none => [])
          ∨ p ∈ (match lookupKey name cf with | some ps => ps | none => [])))
    ∧ folders.Nodup
    ∧ (∀ p ∈ folders, ∀ e, old p = some e →
        (migrateCustomPaths old suffix t0 folders).1 p = some e)
    ∧ (∀ p ∈ folders, ∀ d, t0 p = some d →
        (migrateCustomPaths old suffix t0 folders).1 (addSuffix suffix p)
          = some d)
    ∧ (∀ p ∈ folders, entryIsFile (old p) = true → t0 p = none →
        (∀ q ∈ folders, q.dropLast ≠ p ∧ q ≠ p.dropLast
          ∧ addSuffix suffix q ≠ p.dropLast) →
        ((migrateCustomPaths old suffix t0 folders).1 p.dropLast).isSome
          = true)
    ∧ (migrateCustomPaths old suffix t0 folders).2
        = folders.filter (fun p => (old p).isNone)
    ∧ (∀ r, r ∉ folders →
        (∀ q ∈ folders, r ≠ addSuffix suffix q ∧ r ≠ q.dropLast) →
        (migrateCustomPaths old suffix t0 folders).1 r = t0 r) := by
  have hnd : folders.Nodup := by
    rw [hfolders, plugin_path_list]
    exact List.nodup_dedup _
  refine ⟨?_, hnd, ?_, ?_, ?_, ?_, ?_⟩
  · intro p
    rw [hfolders, plugin_path_list]
    simp [List.mem_dedup, List.mem_append]
  · intro p hp e he
    obtain ⟨l₁, l₂, hsplit, hp1, hp2⟩ := mem_split_of_nodup hp hnd
    rw [migrateCustomPaths, hsplit, List.foldl_append, List.foldl_cons]
    refine migrateCustomPaths_keeps_some old suffix p e l₂ _ ?_
      (migrateCustomPath_copies old suffix _ p e he)
    intro q hq
    have hqf : q ∈ folders := by
      rw [hsplit]
      exact List.mem_append_right _ (List.mem_cons_of_mem _ hq)
    exact ⟨fun hh => hp2 (hh ▸ hq), fun hh => hbck p hp q hqf hh.symm⟩
  · intro p hp d hd
    obtain ⟨l₁, l₂, hsplit, hp1, hp2⟩ := mem_split_of_nodup hp hnd
    have hl₁f : ∀ q ∈ l₁, q ∈ folders := by
      intro q hq
      rw [hsplit]
      exact List.mem_append_left _ hq
    have hl₂f : ∀ q ∈ l₂, q ∈ folders := by
      intro q hq
      rw [hsplit]
      exact List.mem_append_right _ (List.mem_cons_of_mem _ hq)
    have hsurv : (List.foldl (migrateCustomPath old suffix) (t0, []) l₁).1 p
        = some d := by
      refine migrateCustomPaths_keeps_some old suffix p d l₁ _ ?_ hd
      intro q hq
      exact ⟨fun hh => hp1 (hh ▸ hq), fun hh => hbck p hp q (hl₁f q hq) hh.symm⟩
    rw [migrateCustomPaths, hsplit, List.foldl_append, List.foldl_cons]
    refine migrateCustomPaths_keeps_some old suffix _ d l₂ _ ?_
      (migrateCustomPath_moves_aside old suffix _ p d hsurv
        (hbck p hp p hp))
    intro q hq
    refine ⟨hbck q (hl₂f q hq) p hp, ?_⟩
    intro hh
    have hqp : p ≠ q := fun hpq => hp2 (hpq ▸ hq)
    exact hsuf p hp q (hl₂f q hq) hqp hh
  · intro p hp hf ht0 hpar
    obtain ⟨l₁, l₂, hsplit, hp1, hp2⟩ := mem_split_of_nodup hp hnd
    have hl₁f : ∀ q ∈ l₁, q ∈ folders := by
      intro q hq
      rw [hsplit]
      exact List.mem_append_left _ hq
    have hl₂f : ∀ q ∈ l₂, q ∈ folders := by
      intro q hq
      rw [hsplit]
      exact List.mem_append_right _ (List.mem_cons_of_mem _ hq)
    have hsurv : (List.foldl (migrateCustomPath old suffix) (t0, []) l₁).1 p
        = none := by
      rw [migrateCustomPaths_frame old suffix p l₁ _ ?_]
      · exact ht0
      · intro q hq
        exact ⟨fun hh => hp1 (hh ▸ hq),
          fun hh => hbck p hp q (hl₁f q hq) hh.symm,
          fun hh => (hpar q (hl₁f q hq)).1 hh.symm⟩
    have hstep := migrateCustomPath_makes_parent old suffix
      (List.foldl (migrateCustomPath old suffix) (t0, []) l₁) p hf hsurv
      (fun hh => (hpar p hp).2.1 hh.symm)
    obtain ⟨w, hw⟩ := Option.isSome_iff_exists.mp hstep
    rw [migrateCustomPaths, hsplit, List.foldl_append, List.foldl_cons]
    have hkeep := migrateCustomPaths_keeps_some old suffix p.dropLast w l₂ _ ?_ hw
    · simp [hkeep]
    · intro q hq
      exact ⟨fun hh => (hpar q (hl₂f q hq)).2.1 hh.symm,
        fun hh => (hpar q (hl₂f q hq)).2.2 hh.symm⟩
  · exact migrateCustomPaths_warnings old suffix folders (t0, [])
  · intro r hr hq
    rw [migrateCustomPaths, migrateCustomPaths_frame old suffix r folders _ ?_]
    intro q hqf
    exact ⟨fun hh => hr (hh ▸ hqf), (hq q hqf).1, (hq q hqf).2⟩

/-- Witness for C9 on the spec's example: custom files
`all = [theme.php, pluginA]` and `journalX = [pluginB]`, an old tree holding
all three plus an unlisted `plugin3`, and a fresh reference tree holding an
older copy of `theme.php`.  After migration the new tree holds the old
`theme.php`, `pluginA` and `pluginB`, the reference's own `theme.php` was
renamed aside with the `.OJSNEW` suffix, and `plugin3` was not carried
over. -/
theorem c9_witness :
    ((migrateCustomPaths
        (fun p =>
          if p = ["theme.php"] then some (Entry.file 1)
          else if p = ["pluginA"] then some (Entry.dir 2)
          else if p = ["pluginB"] then some (Entry.dir 3)
          else if p = ["plugin3"] then some (Entry.dir 4)
          else none)
        ".OJSNEW"
        (fun p => if p = ["theme.php"] then some (Entry.file 9) else none)
        (plugin_path_list
          [("all", [["theme.php"], ["pluginA"]]), ("journalX", [["pluginB"]])]
          "journalX")).1 ["theme.php"] = some (Entry.file 1))
    ∧ ((migrateCustomPaths
        (fun p =>
          if p = ["theme.php"] then some (Entry.file 1)
          else if p = ["pluginA"] then some (Entry.dir 2)
          else if p = ["pluginB"] then some (Entry.dir 3)
          else if p = ["plugin3"] then some (Entry.dir 4)
          else none)
        ".OJSNEW"
        (fun p => if p = ["theme.php"] then some (Entry.file 9) else none)
        (plugin_path_list
          [("all", [["theme.php"], ["pluginA"]]), ("journalX", [["pluginB"]])]
          "journalX")).1 ["pluginA"] = some (Entry.dir 2))
    ∧ ((migrateCustomPaths
        (fun p =>
          if p = ["theme.php"] then some (Entry.file 1)
          else if p = ["pluginA"] then some (Entry.dir 2)
          else if p = ["pluginB"] then some (Entry.dir 3)
          else if p = ["plugin3"] then some (Entry.dir 4)
          else none)
        ".OJSNEW"
        (fun p => if p = ["theme.php"] then some (Entry.file 9) else none)
        (plugin_path_list
          [("all", [["theme.php"], ["pluginA"]]), ("journalX", [["pluginB"]])]
          "journalX")).1 ["pluginB"] = some (Entry.dir 3))
    ∧ ((migrateCustomPaths
        (fun p =>
          if p = ["theme.php"] then some (Entry.file 1)
          else if p = ["pluginA"] then some (Entry.dir 2)
          else if p = ["pluginB"] then some (Entry.dir 3)
          else if p = ["plugin3"] then some (Entry.dir 4)
          else none)
        ".OJSNEW"
        (fun p => if p = ["theme.php"] then some (Entry.file 9) else none)
        (plugin_path_list
          [("all", [["theme.php"], ["pluginA"]]), ("journalX", [["pluginB"]])]
          "journalX")).1 ["theme.php.OJSNEW"] = some (Entry.file 9))
    ∧ ((migrateCustomPaths
        (fun p =>
          if p = ["theme.php"] then some (Entry.file 1)
          else if p = ["pluginA"] then some (Entry.dir 2)
          else if p = ["pluginB"] then some (Entry.dir 3)
          else if p = ["plugin3"] then some (Entry.dir 4)
          else none)
        ".OJSNEW"
        (fun p => if p = ["theme.php"] then some (Entry.file 9) else none)
        (plugin_path_list
          [("all", [["theme.php"], ["pluginA"]]), ("journalX", [["pluginB"]])]
          "journalX")).1 ["plugin3"] = none) := by
  have h := c9_custom_carry_over
    [("all", [["theme.php"], ["pluginA"]]), ("journalX", [["pluginB"]])]
    "journalX" ".OJSNEW"
    (fun p =>
      if p = ["theme.php"] then some (Entry.file 1)
      else if p = ["pluginA"] then some (Entry.dir 2)
      else if p = ["pluginB"] then some (Entry.dir 3)
      else if p = ["plugin3"] then some (Entry.dir 4)
      else none)
    (fun p => if p = ["theme.php"] then some (Entry.file 9) else none)
    (plugin_path_list
      [("all", [["theme.php"], ["pluginA"]]), ("journalX", [["pluginB"]])]
      "journalX")
    rfl (by decide) (by decide)
  refine ⟨?_, ?_, ?_, ?_, ?_⟩
  · exact h.2.2.1 ["theme.php"] (by decide) (Entry.file 1) (by decide)
  · exact h.2.2.1 ["pluginA"] (by decide) (Entry.dir 2) (by decide)
  · exact h.2.2.1 ["pluginB"] (by decide) (Entry.dir 3) (by decide)
  · have := h.2.2.2.1 ["theme.php"] (by decide) (Entry.file 9) (by decide)
    simpa using this
  · have := h.2.2.2.2.2.2 ["plugin3"] (by decide) (by decide)
    simpa using this

end OjsUpdater
